import Mathlib

/-!
Verification of src/src/udp_cam_libcamera_gst.cpp (onidzelskyi/stereo_camera).

The program captures frames from libcamera into a pair of plain globals
(`frame`, `bytes_used`), and a GLib timeout at 1/FPS drives `push_frame`,
which wraps a copy of the stored bytes in a GstBuffer stamped with a
monotonically advancing presentation timestamp and pushes it to an appsrc.

The shallow embedding below translates the globals into an explicit state
record `Sys`, the two callbacks (`push_frame`, `requestComplete`) and the
signal handler (`sigint_handler`) into pure state transformers, and the
GLib main loop into a step function `runLoop` over an event trace.
Machine integers (guint64 timestamps, size_t lengths) are modelled as Nat:
the 64-bit presentation clock advances by 33333333 per tick and cannot
wrap within any physically realisable run, and all byte counts are small.
-/

namespace UdpCam

/-- Line 50 of the source: `#define FPS 30`. -/
def FPS : Nat := 30

/-- GStreamer constant GST_SECOND, the number of nanoseconds in a second. -/
def GST_SECOND : Nat := 1000000000

/-- gst_util_uint64_scale_int computes `val * num / denom` in integers
(rounding toward zero); used at line 101 for the buffer duration. -/
def gst_util_uint64_scale_int (v num denom : Nat) : Nat := v * num / denom

/-- The per-frame duration set on every pushed buffer (line 101):
`gst_util_uint64_scale_int(1, GST_SECOND, FPS)` = 33333333 ns. -/
def frameDuration : Nat := gst_util_uint64_scale_int 1 GST_SECOND FPS

/-- GstFlowReturn values that the appsrc push-buffer signal can report
(line 104); only the codes relevant to the claims are distinguished. -/
inductive GstFlowReturn
| ok
| notLinked
| flushing
| eos
| notNegotiated
| error
deriving DecidableEq

/-- libcamera Request::Status (line 119 compares against RequestComplete). -/
inductive RequestStatus
| pending
| complete
| cancelled
deriving DecidableEq

/-- One plane of a completed FrameBuffer: the `bytesused` count reported in
the buffer metadata (line 125) and the mapped plane contents returned by
`image->data(i)` (line 127); the mapped length is `data.length`. -/
structure PlaneModel where
  bytesused : Nat
  data : List Nat
deriving DecidableEq

/-- A completed libcamera Request: its status and, for each (stream, buffer)
pair iterated at line 122, the list of planes of that buffer. -/
structure RequestModel where
  status : RequestStatus
  buffers : List (List PlaneModel)
deriving DecidableEq

/-- A GstBuffer as filled by push_frame: the copied payload (lines 95-97),
the presentation timestamp (line 100) and the duration (line 101). -/
structure GstBufferModel where
  data : List Nat
  pts : Nat
  duration : Nat
deriving DecidableEq

/-- The mutable global state of the program (lines 44-56 and the static
`timestamp` local of push_frame at line 82), together with observables:
`allocs` counts malloc calls for the frame region (line 136), `diagsCerr`
records the (bytesused, plane size) pairs printed to std::cerr at
lines 130-133, `pushLogs` counts the g_print at line 108, `srcInstalled`
is whether the g_timeout source added at line 344 is still installed
(a FALSE return from the callback removes it), `appsrcSet` is whether
`g_appsrc` is non-null, and `eosCount` counts calls to
gst_app_src_end_of_stream. The frame region is the list of bytes stored
in the malloc block pointed to by `frame`; `none` models the null pointer. -/
structure Sys where
  frame : Option (List Nat)
  bytes_used : Nat
  timestamp : Nat
  srcInstalled : Bool
  allocs : Nat
  diagsCerr : List (Nat × Nat)
  pushLogs : Nat
  g_running : Bool
  appsrcSet : Bool
  eosCount : Nat
deriving DecidableEq

/-- The state right after startup reaches the main loop: frame null
(line 52), bytes_used 0 (line 53), the static timestamp 0 (line 82), the
timeout source installed (line 344), appsrc resolved (line 333), the run
flag true (line 48), no EOS yet. -/
def initSys : Sys :=
  { frame := none, bytes_used := 0, timestamp := 0, srcInstalled := true,
    allocs := 0, diagsCerr := [], pushLogs := 0, g_running := true,
    appsrcSet := true, eosCount := 0 }

/-- Embedding of push_frame (lines 81-113). If the frame pointer is null the
callback returns TRUE immediately (line 88). Otherwise it allocates a
buffer of `bytes_used` bytes, memcpys that many bytes out of the frame
region (lines 95-97, modelled as `List.take`), stamps pts with the current
clock and duration with frameDuration (lines 100-101), advances the clock
(line 102), and pushes. On a non-OK flow return it logs and returns FALSE
(lines 107-110), which removes the periodic source. The returned triple is
(new state, pushed buffer if any, the gboolean returned to GLib). -/
def push_frame (s : Sys) (ret : GstFlowReturn) :
    Sys × Option GstBufferModel × Bool :=
  match s.frame with
  | none => (s, none, true)
  | some fr =>
    let buffer : GstBufferModel :=
      { data := fr.take s.bytes_used, pts := s.timestamp,
        duration := frameDuration }
    let s1 : Sys := { s with timestamp := s.timestamp + frameDuration }
    if ret = GstFlowReturn.ok then (s1, some buffer, true)
    else ({ s1 with pushLogs := s1.pushLogs + 1 }, some buffer, false)

/-- Embedding of the per-plane body of requestComplete (lines 124-138):
set the global `bytes_used` to `min(bytesused, data.size())` (line 128),
print a diagnostic to cerr when bytesused exceeds the mapped size
(lines 130-133), malloc the frame region sized to the clamped count if the
pointer is still null (lines 135-137), then memcpy the clamped count of
bytes from the plane into the region (line 138). A write of n bytes into
an existing region r leaves `data.take n ++ r.drop n`; when n exceeds the
length of r this models the (undefined) heap overflow by extension, and
theorems about region size therefore carry the hypothesis that the write
fits. -/
def processPlane (s : Sys) (p : PlaneModel) : Sys :=
  let n : Nat := min p.bytesused p.data.length
  let s1 : Sys :=
    { s with bytes_used := n,
             diagsCerr := if p.data.length < p.bytesused
               then s.diagsCerr ++ [(p.bytesused, p.data.length)]
               else s.diagsCerr }
  match s1.frame with
  | none => { s1 with frame := some (p.data.take n), allocs := s1.allocs + 1 }
  | some r => { s1 with frame := some (p.data.take n ++ r.drop n) }

/-- Embedding of requestComplete (lines 117-144). If the request status is
not RequestComplete the function returns at once (lines 119-120): nothing
is published and, because the reuse/queueRequest calls at lines 142-143
come after that return, the request is NOT re-queued. On a complete
request every plane of every buffer is processed in order, then the
request is reused and re-queued. The Bool result records whether
queueRequest was called on the request. -/
def requestComplete (s : Sys) (req : RequestModel) : Sys × Bool :=
  if req.status = RequestStatus.complete then
    (req.buffers.foldl (fun acc planes => planes.foldl processPlane acc) s,
     true)
  else (s, false)

/-- Line 167 of the source is `// std::signal(SIGINT, sigint_handler);` —
the registration of the interrupt handler is commented out, so the handler
is never installed and SIGINT keeps its default disposition. -/
def sigintInstalled : Bool := false

/-- Embedding of sigint_handler as written (lines 147-152): clear the run
flag and, if the appsrc pointer is set, send end-of-stream once. The
function is dead code because `sigintInstalled` is false. -/
def sigint_handler (s : Sys) : Sys :=
  { s with g_running := false,
           eosCount := if s.appsrcSet then s.eosCount + 1 else s.eosCount }

/-- Events the running program can receive once the main loop at line 348
is entered: a firing of the 1/FPS timeout with the flow return the appsrc
push will report, a libcamera request completion, or delivery of SIGINT. -/
inductive Event
| tick (ret : GstFlowReturn)
| complete (req : RequestModel)
| sigint

/-- How a run of the main loop ends after a finite event trace: still
inside g_main_loop_run (`alive`), the process killed by the default
disposition of an unhandled signal (`killed`), or g_main_loop_run
returned so that the cleanup at lines 352-367 would execute
(`exitedLoop`). The loop returns only if g_main_loop_quit is called on
it, and no code path of the source calls g_main_loop_quit. -/
inductive LoopEnd
| alive
| killed
| exitedLoop
deriving DecidableEq

/-- One firing of the periodic timeout (line 344). GLib only invokes the
callback while the source is installed; a FALSE return removes the
source. -/
def loopTick (s : Sys) (ret : GstFlowReturn) : Sys × Option GstBufferModel :=
  if s.srcInstalled then
    let p := push_frame s ret
    ({ p.1 with srcInstalled := p.2.2 }, p.2.1)
  else (s, none)

/-- The main loop (line 348) consuming a finite trace of events: returns
the final state, the list of buffers pushed to the appsrc in order, and
how the run ended. SIGINT with no handler installed terminates the
process immediately (default disposition), consuming no further events;
with a handler it would run sigint_handler and continue looping, since
the handler does not quit the loop either. No branch produces
`LoopEnd.exitedLoop` because no code path of the program quits the loop. -/
def runLoop (s : Sys) : List Event → Sys × List GstBufferModel × LoopEnd
  | [] => (s, [], LoopEnd.alive)
  | Event.sigint :: evs =>
    if sigintInstalled then runLoop (sigint_handler s) evs
    else (s, [], LoopEnd.killed)
  | Event.complete req :: evs => runLoop (requestComplete s req).1 evs
  | Event.tick ret :: evs =>
    let t := loopTick s ret
    let r := runLoop t.1 evs
    (r.1, t.2.toList ++ r.2.1, r.2.2)

/-- Decides whether a loop outcome is the one in which g_main_loop_run
returned, i.e. the only outcome in which the post-loop cleanup at
lines 352-367 (camera stop, buffer free, EOS, return 0) would execute. -/
def endIsExit : LoopEnd → Bool
  | LoopEnd.exitedLoop => true
  | _ => false

/-- The appsrc caps of the pipeline built in main (lines 311-320): the
snprintf hardcodes `format=BGRx,width=800,height=600,framerate=30/1` in
the launch string. The negotiated camera size, saved into the globals at
lines 244-245, is passed here as arguments to make the data flow explicit,
and is not used: the caps-update block at lines 249-253 is commented out. -/
structure CapsModel where
  fmt : String
  width : Nat
  height : Nat
  fpsNum : Nat
  fpsDen : Nat
deriving DecidableEq

/-- The caps the appsrc is created with, as a function of the negotiated
camera resolution; per lines 313-314 they are a constant. -/
def mainAppsrcCaps (_negotiatedW _negotiatedH : Nat) : CapsModel :=
  { fmt := "BGRx", width := 800, height := 600, fpsNum := 30, fpsDen := 1 }

/-- State of the unsynchronised bridge between the two threads, at the
granularity of single bytes: the shared `frame` region (lines 51-53,
written by the memcpy at line 138 on the libcamera thread and read by the
memcpy at line 97 on the main-loop thread, with no mutex anywhere in the
file), the private buffer the reader fills, and the two copy indices. -/
structure RaceState where
  region : List Nat
  outBuf : List Nat
  wIdx : Nat
  rIdx : Nat
deriving DecidableEq

/-- One byte of the publishing memcpy at line 138: store the next source
byte of the new publication into the shared region. -/
def writerStep (src : List Nat) (s : RaceState) : RaceState :=
  { s with region := s.region.set s.wIdx (src.getD s.wIdx 0),
           wIdx := s.wIdx + 1 }

/-- One byte of the snapshot memcpy at line 97: append the next byte of
the shared region to the reader buffer. -/
def readerStep (s : RaceState) : RaceState :=
  { s with outBuf := s.outBuf ++ [s.region.getD s.rIdx 0],
           rIdx := s.rIdx + 1 }

/-- Run an interleaving of the two concurrent copies: `true` schedules one
writer byte, `false` one reader byte. Because the source protects the
shared globals with no lock, every schedule is a possible execution. -/
def runRace (src : List Nat) : List Bool → RaceState → RaceState
  | [], s => s
  | c :: cs, s => runRace src cs (if c then writerStep src s else readerStep s)

/-- Allocation invariant for the frame region: the number of malloc calls
never exceeds one, and is zero exactly while the pointer is still null. -/
def AllocInv (s : Sys) : Prop :=
  s.allocs ≤ 1 ∧ (s.frame = none → s.allocs = 0)

/-! Helper lemmas about the embedded operations. -/

theorem processPlane_of_none (s : Sys) (p : PlaneModel) (h : s.frame = none) :
    processPlane s p
      = { s with bytes_used := min p.bytesused p.data.length,
                 diagsCerr := if p.data.length < p.bytesused
                   then s.diagsCerr ++ [(p.bytesused, p.data.length)]
                   else s.diagsCerr,
                 frame := some (p.data.take (min p.bytesused p.data.length)),
                 allocs := s.allocs + 1 } := by
  simp only [processPlane, h]

theorem processPlane_of_some (s : Sys) (p : PlaneModel) (r : List Nat)
    (h : s.frame = some r) :
    processPlane s p
      = { s with bytes_used := min p.bytesused p.data.length,
                 diagsCerr := if p.data.length < p.bytesused
                   then s.diagsCerr ++ [(p.bytesused, p.data.length)]
                   else s.diagsCerr,
                 frame := some (p.data.take (min p.bytesused p.data.length)
                   ++ r.drop (min p.bytesused p.data.length)) } := by
  simp only [processPlane, h]

theorem processPlane_timestamp (s : Sys) (p : PlaneModel) :
    (processPlane s p).timestamp = s.timestamp := by
  cases h : s.frame with
  | none => rw [processPlane_of_none s p h]
  | some r => rw [processPlane_of_some s p r h]

theorem processPlane_frame_isSome (s : Sys) (p : PlaneModel) :
    (processPlane s p).frame.isSome = true := by
  cases h : s.frame with
  | none => rw [processPlane_of_none s p h]; rfl
  | some r => rw [processPlane_of_some s p r h]; rfl

theorem processPlane_allocInv (s : Sys) (p : PlaneModel) (h : AllocInv s) :
    AllocInv (processPlane s p) := by
  cases hf : s.frame with
  | none =>
    rw [processPlane_of_none s p hf]
    refine ⟨?_, fun hc => by simp at hc⟩
    have h0 : s.allocs = 0 := h.2 hf
    simp [h0]
  | some r =>
    rw [processPlane_of_some s p r hf]
    exact ⟨h.1, fun hc => by simp at hc⟩

theorem foldl_preserve {α : Type} (f : Sys → α → Sys) (P : Sys → Prop)
    (hf : ∀ s a, P s → P (f s a)) :
    ∀ (l : List α) (s : Sys), P s → P (List.foldl f s l) := by
  intro l
  induction l with
  | nil => intro s h; exact h
  | cons a l ih => intro s h; exact ih _ (hf _ _ h)

theorem requestComplete_preserve (P : Sys → Prop)
    (hp : ∀ s p, P s → P (processPlane s p)) (s : Sys) (req : RequestModel)
    (h : P s) : P ((requestComplete s req).1) := by
  unfold requestComplete
  split
  · exact foldl_preserve _ P
      (fun s planes hs => foldl_preserve processPlane P hp planes s hs)
      req.buffers s h
  · exact h

theorem push_frame_frame_allocs (s : Sys) (ret : GstFlowReturn) :
    (push_frame s ret).1.frame = s.frame ∧
    (push_frame s ret).1.allocs = s.allocs := by
  cases h : s.frame with
  | none => simp [push_frame, h]
  | some fr =>
    simp only [push_frame, h]
    split <;> exact ⟨rfl, rfl⟩

theorem loopTick_frame_allocs (s : Sys) (ret : GstFlowReturn) :
    (loopTick s ret).1.frame = s.frame ∧
    (loopTick s ret).1.allocs = s.allocs := by
  unfold loopTick
  split
  · exact ⟨(push_frame_frame_allocs s ret).1, (push_frame_frame_allocs s ret).2⟩
  · exact ⟨rfl, rfl⟩

theorem runLoop_preserve (P : Sys → Prop)
    (hpp : ∀ s p, P s → P (processPlane s p))
    (ht : ∀ s ret, P s → P (loopTick s ret).1)
    (hsig : ∀ s, P s → P (sigint_handler s)) :
    ∀ (evs : List Event) (s : Sys), P s → P (runLoop s evs).1 := by
  intro evs
  induction evs with
  | nil => intro s h; exact h
  | cons e evs ih =>
    cases e with
    | sigint =>
      intro s h
      by_cases hi : sigintInstalled
      · simpa [runLoop, hi] using ih _ (hsig s h)
      · simpa [runLoop, hi] using h
    | complete req =>
      intro s h
      simpa [runLoop] using ih _ (requestComplete_preserve P hpp s req h)
    | tick ret =>
      intro s h
      simpa [runLoop] using ih _ (ht s ret h)

theorem requestComplete_timestamp (s : Sys) (req : RequestModel) :
    ((requestComplete s req).1).timestamp = s.timestamp := by
  exact requestComplete_preserve (fun u => u.timestamp = s.timestamp)
    (fun u p hu => (processPlane_timestamp u p).trans hu) s req rfl

theorem loopTick_spec (s : Sys) (ret : GstFlowReturn) :
    ((loopTick s ret).2 = none ∧ (loopTick s ret).1.timestamp = s.timestamp) ∨
    ((loopTick s ret).2
        = some { data := (s.frame.getD []).take s.bytes_used,
                 pts := s.timestamp, duration := frameDuration } ∧
      (loopTick s ret).1.timestamp = s.timestamp + frameDuration) := by
  by_cases hi : s.srcInstalled
  · cases h : s.frame with
    | none => left; simp [loopTick, push_frame, hi, h]
    | some fr =>
      right
      simp only [loopTick, push_frame, hi, if_true, h]
      constructor
      · split <;> simp
      · split <;> rfl
  · left
    simp [loopTick, hi]

theorem runLoop_pts (evs : List Event) : ∀ s : Sys,
    ((runLoop s evs).2.1).map GstBufferModel.pts
      = List.range' s.timestamp ((runLoop s evs).2.1).length frameDuration := by
  induction evs with
  | nil => intro s; rfl
  | cons e evs ih =>
    cases e with
    | sigint =>
      intro s
      by_cases hi : sigintInstalled
      · have := ih (sigint_handler s)
        simpa [runLoop, hi, sigint_handler] using this
      · simp [runLoop, hi]
    | complete req =>
      intro s
      have := ih (requestComplete s req).1
      rw [requestComplete_timestamp] at this
      simpa [runLoop] using this
    | tick ret =>
      intro s
      have hr := ih (loopTick s ret).1
      rcases loopTick_spec s ret with ⟨hnone, hts⟩ | ⟨hsome, hts⟩
      · rw [hts] at hr
        simpa [runLoop, hnone] using hr
      · rw [hts] at hr
        simp only [runLoop, hsome, Option.toList_some, List.singleton_append,
          List.map_cons, List.length_cons]
        rw [hr, List.range'_succ]

/-! Claim theorems. -/

/-- Claim C1: the presentation clock starts at 0 at pipeline start, and the
presentation timestamps stamped on the buffers submitted by the pump over
any execution are exactly 0, d, 2d, ... with d = 10^9 / FPS = 33333333
nanoseconds, hence strictly increasing by exactly d per push. -/
theorem c1_monotone_pts :
    initSys.timestamp = 0 ∧ frameDuration = 33333333 ∧
    ∀ evs : List Event,
      ((runLoop initSys evs).2.1).map GstBufferModel.pts
        = List.range' 0 ((runLoop initSys evs).2.1).length frameDuration := by
  exact ⟨rfl, by decide, fun evs => runLoop_pts evs initSys⟩

/-- Claim C2 is false on the code: at a state holding a frame, a push
returning GST_FLOW_ERROR (neither Flushing nor EOS) makes push_frame
return FALSE, which removes the periodic source (the pump does not
continue), and the presentation clock is advanced by one frame duration
(it does not stay unchanged). -/
theorem c2_counterexample :
    (push_frame { initSys with frame := some [1, 2, 3], bytes_used := 3 }
        GstFlowReturn.error).2.2 = false ∧
    (push_frame { initSys with frame := some [1, 2, 3], bytes_used := 3 }
        GstFlowReturn.error).1.timestamp = frameDuration ∧
    frameDuration ≠ 0 :=
  ⟨rfl, rfl, by decide⟩

/-- Claim C2, amended: when a pump submission fails with any non-OK status
(Flushing, EOS or any other), the failure is logged and the tick callback
returns FALSE, terminating the pump; the presentation clock is advanced by
one frame duration on every submission attempt, failed ones included, and
the buffer had already been pushed. -/
theorem c2_amended_push_failure (s : Sys) (fr : List Nat)
    (ret : GstFlowReturn) (hf : s.frame = some fr)
    (hr : ret ≠ GstFlowReturn.ok) :
    (push_frame s ret).2.2 = false ∧
    (push_frame s ret).1.pushLogs = s.pushLogs + 1 ∧
    (push_frame s ret).1.timestamp = s.timestamp + frameDuration ∧
    ((push_frame s ret).2.1).isSome = true := by
  simp [push_frame, hf, hr]

/-- Witness for the amended C2 at a concrete state and a Flushing return. -/
theorem c2_witness :
    ({ initSys with frame := some [5], bytes_used := 1 } : Sys).frame
        = some [5] ∧
    GstFlowReturn.flushing ≠ GstFlowReturn.ok ∧
    (push_frame { initSys with frame := some [5], bytes_used := 1 }
        GstFlowReturn.flushing).2.2 = false ∧
    (push_frame { initSys with frame := some [5], bytes_used := 1 }
        GstFlowReturn.flushing).1.pushLogs = 0 + 1 :=
  ⟨rfl, by decide,
   (c2_amended_push_failure _ [5] _ rfl (by decide)).1,
   (c2_amended_push_failure _ [5] _ rfl (by decide)).2.1⟩

/-- Claim C3: the publication count is always min(bytesused, mapped length),
so no read past the end of the mapped plane occurs; when the driver reports
bytesused larger than the mapped length only mapped-length bytes are
published and a diagnostic is appended to the error stream; when bytesused
fits, exactly bytesused bytes are published and no diagnostic is emitted;
and the published prefix of the frame region is exactly the clamped prefix
of the plane data. -/
theorem c3_clamp_oversized (s : Sys) (p : PlaneModel) :
    (processPlane s p).bytes_used = min p.bytesused p.data.length ∧
    (processPlane s p).bytes_used ≤ p.data.length ∧
    (p.data.length < p.bytesused →
      (processPlane s p).diagsCerr
          = s.diagsCerr ++ [(p.bytesused, p.data.length)] ∧
      (processPlane s p).bytes_used = p.data.length) ∧
    (p.bytesused ≤ p.data.length →
      (processPlane s p).bytes_used = p.bytesused ∧
      (processPlane s p).diagsCerr = s.diagsCerr) ∧
    (∀ f, (processPlane s p).frame = some f →
      f.take (min p.bytesused p.data.length)
        = p.data.take (min p.bytesused p.data.length)) := by
  have hlen : (p.data.take (min p.bytesused p.data.length)).length
      = min p.bytesused p.data.length := by
    rw [List.length_take]
    exact Nat.min_eq_left (Nat.min_le_right _ _)
  cases hf : s.frame with
  | none =>
    rw [processPlane_of_none s p hf]
    refine ⟨rfl, Nat.min_le_right _ _, ?_, ?_, ?_⟩
    · intro h
      exact ⟨by simp [h], by simp [Nat.min_eq_right (Nat.le_of_lt h)]⟩
    · intro h
      exact ⟨by simp [Nat.min_eq_left h], by simp [Nat.not_lt.mpr h]⟩
    · intro f hfe
      cases hfe
      simp [List.take_take]
  | some r =>
    rw [processPlane_of_some s p r hf]
    refine ⟨rfl, Nat.min_le_right _ _, ?_, ?_, ?_⟩
    · intro h
      exact ⟨by simp [h], by simp [Nat.min_eq_right (Nat.le_of_lt h)]⟩
    · intro h
      exact ⟨by simp [Nat.min_eq_left h], by simp [Nat.not_lt.mpr h]⟩
    · intro f hfe
      cases hfe
      exact List.take_left' hlen

/-- Witness for C3 at a plane reporting 20 bytes used on a 4-byte mapping:
only 4 bytes are published and the diagnostic pair (20, 4) is emitted. -/
theorem c3_witness :
    (4 : Nat) < 20 ∧
    (processPlane initSys { bytesused := 20, data := [1, 2, 3, 4] }).bytes_used
        = 4 ∧
    (processPlane initSys
        { bytesused := 20, data := [1, 2, 3, 4] }).diagsCerr
      = [] ++ [(20, 4)] :=
  ⟨by decide,
   ((c3_clamp_oversized initSys
      { bytesused := 20, data := [1, 2, 3, 4] }).2.2.1 (by decide)).2,
   ((c3_clamp_oversized initSys
      { bytesused := 20, data := [1, 2, 3, 4] }).2.2.1 (by decide)).1⟩

/-- Claim C4: a tick fired while the frame pointer is still null is a
complete no-op (no buffer is submitted, not even an empty one, and the
state, the presentation clock included, is unchanged); once a frame is
stored, a tick submits exactly one buffer of exactly the published length
containing a copy of the stored bytes; and once the frame pointer is set
it stays set over every subsequent event of the run. -/
theorem c4_no_starvation_pump :
    (∀ (s : Sys) (ret : GstFlowReturn), s.frame = none →
        push_frame s ret = (s, none, true)) ∧
    (∀ (s : Sys) (fr : List Nat) (ret : GstFlowReturn),
        s.frame = some fr → s.bytes_used ≤ fr.length →
        (push_frame s ret).2.1
          = some { data := fr.take s.bytes_used, pts := s.timestamp,
                   duration := frameDuration } ∧
        (fr.take s.bytes_used).length = s.bytes_used) ∧
    (∀ (s : Sys) (evs : List Event), s.frame.isSome = true →
        ((runLoop s evs).1).frame.isSome = true) := by
  refine ⟨?_, ?_, ?_⟩
  · intro s ret h
    simp [push_frame, h]
  · intro s fr ret h hle
    constructor
    · simp only [push_frame, h]
      split <;> rfl
    · rw [List.length_take]
      exact Nat.min_eq_left hle
  · intro s evs h
    exact runLoop_preserve (fun u => u.frame.isSome = true)
      (fun u p _ => processPlane_frame_isSome u p)
      (fun u ret hu => by
        show (loopTick u ret).1.frame.isSome = true
        rw [(loopTick_frame_allocs u ret).1]
        exact hu)
      (fun u hu => hu) evs s h

/-- Witness for C4: from the startup state a tick is a no-op; from a state
holding the 3-byte frame [9, 8, 7] with published length 2, a tick submits
one buffer carrying [9, 8]; and the frame stays set over a further tick. -/
theorem c4_witness :
    push_frame initSys GstFlowReturn.ok = (initSys, none, true) ∧
    (push_frame { initSys with frame := some [9, 8, 7], bytes_used := 2 }
        GstFlowReturn.ok).2.1
      = some { data := [9, 8], pts := 0, duration := frameDuration } ∧
    ((runLoop { initSys with frame := some [9, 8, 7], bytes_used := 2 }
        [Event.tick GstFlowReturn.ok]).1).frame.isSome = true :=
  ⟨c4_no_starvation_pump.1 initSys GstFlowReturn.ok rfl,
   (c4_no_starvation_pump.2.1
      { initSys with frame := some [9, 8, 7], bytes_used := 2 } [9, 8, 7]
      GstFlowReturn.ok rfl (by decide)).1,
   c4_no_starvation_pump.2.2 _ [Event.tick GstFlowReturn.ok] rfl⟩

/-- Claim C5 is false on the code: a completion callback for a cancelled
request publishes nothing, but the request is NOT re-queued — the
function returns before the reuse and queueRequest calls, so the second
component (whether queueRequest was called) is false, not true. -/
theorem c5_counterexample :
    requestComplete initSys
        { status := RequestStatus.cancelled,
          buffers := [[{ bytesused := 4, data := [1, 2, 3, 4] }]] }
      = (initSys, false) := rfl

/-- Claim C5, amended: on every completion callback whose request status is
not Complete, nothing is published to the frame store and the callback
returns immediately, dropping the request without re-queuing it. -/
theorem c5_amended_no_requeue (s : Sys) (req : RequestModel)
    (h : req.status ≠ RequestStatus.complete) :
    requestComplete s req = (s, false) := by
  simp [requestComplete, h]

/-- Witness for the amended C5 at a pending request. -/
theorem c5_witness :
    RequestStatus.pending ≠ RequestStatus.complete ∧
    requestComplete initSys { status := RequestStatus.pending, buffers := [] }
      = (initSys, false) :=
  ⟨by decide, c5_amended_no_requeue initSys _ (by decide)⟩

/-- Claim C6 names a code bug: the SIGINT handler registration (line 167)
is commented out, so after the shutdown signal the default disposition
kills the process at once — zero end-of-stream events are delivered to
the encoder source (not exactly one), and the teardown sequence that
stops the camera before freeing its buffers never runs, although the
program itself prints that Ctrl-C stops it gracefully. -/
theorem c6_sigint_never_installed :
    sigintInstalled = false ∧
    runLoop { initSys with frame := some [1], bytes_used := 1 } [Event.sigint]
      = ({ initSys with frame := some [1], bytes_used := 1 }, [],
         LoopEnd.killed) ∧
    ({ initSys with frame := some [1], bytes_used := 1 } : Sys).eosCount
      = 0 :=
  ⟨rfl, rfl, rfl⟩

/-- Claim C7 is false on the code: when the driver adjusts the requested
resolution to 640 x 480, the appsrc caps still carry the hardcoded
800 x 600 of the launch string — they are not rebuilt. -/
theorem c7_counterexample :
    (mainAppsrcCaps 640 480).width ≠ 640 ∧
    (mainAppsrcCaps 640 480).height ≠ 480 := by
  decide

/-- Claim C7, amended: the encoder-source caps are the compile-time
constant BGRx 800 x 600 at 30/1 fps for every negotiated camera
configuration; they are never rebuilt from the negotiated width and
height, so they match the camera only when it happens to negotiate
exactly 800 x 600. -/
theorem c7_amended_caps_constant (negW negH : Nat) :
    mainAppsrcCaps negW negH
      = { fmt := "BGRx", width := 800, height := 600,
          fpsNum := 30, fpsDen := 1 } := rfl

/-- Claim C8 is false on the code: the bridge is a pair of plain globals
with no mutex, so the two concurrent memcpys can interleave; under the
schedule writer-reader-reader-writer a snapshot taken while publication
[7, 7] overwrites publication [5, 5] reads [7, 5], which matches neither
publication. -/
theorem c8_counterexample :
    (runRace [7, 7] [true, false, false, true]
        { region := [5, 5], outBuf := [], wIdx := 0, rIdx := 0 }).outBuf
      = [7, 5] ∧
    ([7, 5] : List Nat) ≠ [5, 5] ∧ ([7, 5] : List Nat) ≠ [7, 7] := by
  decide

/-- Claim C8, amended: publish and snapshot are NOT serialised — the code
holds no mutex and keeps no generation counter, and there exists an
interleaving of the publishing copy and the snapshot copy whose snapshot
mixes bytes from two different publications. -/
theorem c8_amended_unserialised :
    ∃ sched : List Bool,
      (runRace [7, 7] sched
          { region := [5, 5], outBuf := [], wIdx := 0, rIdx := 0 }).outBuf
        ≠ [5, 5] ∧
      (runRace [7, 7] sched
          { region := [5, 5], outBuf := [], wIdx := 0, rIdx := 0 }).outBuf
        ≠ [7, 7] :=
  ⟨[true, false, false, true], by decide⟩

/-- Claim C9: over any execution the frame region is malloc-ed at most
once; the single allocation happens at the first publication and is sized
to that publication count (the first clamped byte count); every later
publication allocates nothing, and when its clamped count fits in the
region it keeps the region size unchanged and copies exactly the clamped
count of plane bytes into the front of that same region. The source
contains no free or realloc of the region. -/
theorem c9_single_allocation :
    (∀ evs : List Event, ((runLoop initSys evs).1).allocs ≤ 1) ∧
    (∀ (s : Sys) (p : PlaneModel), s.frame = none →
        (processPlane s p).allocs = s.allocs + 1 ∧
        (processPlane s p).frame
          = some (p.data.take (min p.bytesused p.data.length)) ∧
        (p.data.take (min p.bytesused p.data.length)).length
          = min p.bytesused p.data.length) ∧
    (∀ (s : Sys) (p : PlaneModel) (r : List Nat), s.frame = some r →
        (processPlane s p).allocs = s.allocs ∧
        (min p.bytesused p.data.length ≤ r.length →
          ∃ f, (processPlane s p).frame = some f ∧ f.length = r.length ∧
            f.take (min p.bytesused p.data.length)
              = p.data.take (min p.bytesused p.data.length))) := by
  have hlen : ∀ p : PlaneModel,
      (p.data.take (min p.bytesused p.data.length)).length
        = min p.bytesused p.data.length := by
    intro p
    rw [List.length_take]
    exact Nat.min_eq_left (Nat.min_le_right _ _)
  refine ⟨?_, ?_, ?_⟩
  · intro evs
    have hInv : AllocInv (runLoop initSys evs).1 :=
      runLoop_preserve AllocInv processPlane_allocInv
        (fun u ret hu =>
          ⟨by rw [(loopTick_frame_allocs u ret).2]; exact hu.1,
           fun hn => by
            rw [(loopTick_frame_allocs u ret).2]
            exact hu.2 (by rw [← (loopTick_frame_allocs u ret).1]; exact hn)⟩)
        (fun u hu => hu) evs initSys ⟨Nat.zero_le 1, fun _ => rfl⟩
    exact hInv.1
  · intro s p h
    rw [processPlane_of_none s p h]
    exact ⟨rfl, rfl, hlen p⟩
  · intro s p r h
    rw [processPlane_of_some s p r h]
    refine ⟨rfl, fun hn => ?_⟩
    refine ⟨p.data.take (min p.bytesused p.data.length)
        ++ r.drop (min p.bytesused p.data.length), rfl, ?_, ?_⟩
    · rw [List.length_append, hlen p, List.length_drop]
      omega
    · exact List.take_left' (hlen p)

/-- Witness for C9: the first publication allocates once, sized to its
clamped count; a second publication into the same region allocates
nothing; and a run with one completed request performs at most one
allocation. -/
theorem c9_witness :
    initSys.frame = none ∧
    (processPlane initSys { bytesused := 3, data := [1, 2, 3, 4] }).allocs
      = 0 + 1 ∧
    (processPlane (processPlane initSys { bytesused := 3, data := [1, 2, 3, 4] })
        { bytesused := 2, data := [7, 7] }).allocs
      = (processPlane initSys { bytesused := 3, data := [1, 2, 3, 4] }).allocs ∧
    ((runLoop initSys
        [Event.complete
          { status := RequestStatus.complete,
            buffers := [[{ bytesused := 3, data := [1, 2, 3, 4] }]] }]).1).allocs
      ≤ 1 :=
  ⟨rfl,
   (c9_single_allocation.2.1 initSys _ rfl).1,
   (c9_single_allocation.2.2 _ _ [1, 2, 3] rfl).1,
   c9_single_allocation.1 _⟩

/-- Claim C10: the interrupt handler is never installed and no code path of
the program calls g_main_loop_quit, so no finite event trace makes
g_main_loop_run return: every run reaching the main loop ends either
still looping or killed by an unhandled signal, and the post-loop cleanup
sequence (camera stop, buffer-pool free, end-of-stream, return 0) is
never executed. -/
theorem c10_loop_never_exits :
    sigintInstalled = false ∧
    ∀ (evs : List Event) (s : Sys),
      endIsExit (runLoop s evs).2.2 = false := by
  refine ⟨rfl, ?_⟩
  intro evs
  induction evs with
  | nil => intro s; rfl
  | cons e evs ih =>
    cases e with
    | sigint =>
      intro s
      by_cases hi : sigintInstalled
      · simpa [runLoop, hi] using ih (sigint_handler s)
      · simp [runLoop, hi, endIsExit]
    | complete req =>
      intro s
      simpa [runLoop] using ih (requestComplete s req).1
    | tick ret =>
      intro s
      simpa [runLoop] using ih (loopTick s ret).1

end UdpCam
